import Mathlib

/-!
Verification of the synchronization engine of the youtubePlaylist repository:
the set-reconciliation diff (`src/utils/diff.ts`), the OAuth token lifecycle
(`src/auth/oauth-client.ts`), the retrying API client (`src/utils/api-client.ts`),
the sync orchestrator (`src/services/sync.service.ts`), and the configuration
schema (`src/config/schema.ts`), shallowly embedded as Lean definitions.
-/

namespace YTSync

/-! ## Set reconciler: `arrayDiff` from `src/utils/diff.ts`

TypeScript arrays become lists; the two key `Set`s become the lists of mapped
keys with membership tests (`Set.has` = `List.contains`). -/

structure DiffResult (T : Type) where
  toAdd : List T
  toRemove : List T
  deriving Repr, DecidableEq

def arrayDiff {T K : Type} [DecidableEq K]
    (current target : List T) (keyExtractor : T → K) : DiffResult T :=
  let currentKeys := current.map keyExtractor
  let targetKeys := target.map keyExtractor
  { toAdd := target.filter (fun item => !(currentKeys.contains (keyExtractor item)))
    toRemove := current.filter (fun item => !(targetKeys.contains (keyExtractor item))) }

end YTSync

namespace YTSync

/-- C1: For every pair of finite sequences `current` and `desired` and every key
extractor `k`, `arrayDiff` returns `toAdd` = exactly those elements of `desired`
whose key is absent from the key-set of `current`, in `desired`'s original
order, and `toRemove` = exactly those elements of `current` whose key is absent
from the key-set of `desired`, in `current`'s original order; consequently the
keys of `toAdd` are disjoint from the keys of `current` and the keys of
`toRemove` are disjoint from the keys of `desired`. -/
theorem arrayDiff_correct {T K : Type} [DecidableEq K]
    (current desired : List T) (k : T → K) :
    (arrayDiff current desired k).toAdd
        = desired.filter (fun d => decide (k d ∉ current.map k)) ∧
    (arrayDiff current desired k).toRemove
        = current.filter (fun c => decide (k c ∉ desired.map k)) ∧
    ((arrayDiff current desired k).toAdd.map k).inter (current.map k) = [] ∧
    ((arrayDiff current desired k).toRemove.map k).inter (desired.map k) = [] := by
  refine ⟨?_, ?_, ?_, ?_⟩
  · exact List.filter_congr (fun x _ => by by_cases hm : k x ∈ current.map k <;> simp [hm])
  · exact List.filter_congr (fun x _ => by by_cases hm : k x ∈ desired.map k <;> simp [hm])
  · simp only [arrayDiff, List.inter]
    rw [List.filter_eq_nil_iff]
    simp +contextual [List.mem_filter]
    exact fun a x hx h hka y hy => hka ▸ h y hy
  · simp only [arrayDiff, List.inter]
    rw [List.filter_eq_nil_iff]
    simp +contextual [List.mem_filter]
    exact fun a x hx h hka y hy => hka ▸ h y hy

/-- Witness for C1 at a concrete input. -/
theorem arrayDiff_correct_witness :
    (arrayDiff [1, 2] [2, 3] (fun n : Nat => n)).toAdd
        = [2, 3].filter (fun d => decide (d ∉ [1, 2].map (fun n : Nat => n))) ∧
    (arrayDiff [1, 2] [2, 3] (fun n : Nat => n)).toRemove
        = [1, 2].filter (fun c => decide (c ∉ [2, 3].map (fun n : Nat => n))) ∧
    ((arrayDiff [1, 2] [2, 3] (fun n : Nat => n)).toAdd.map (fun n : Nat => n)).inter
        ([1, 2].map (fun n : Nat => n)) = [] ∧
    ((arrayDiff [1, 2] [2, 3] (fun n : Nat => n)).toRemove.map (fun n : Nat => n)).inter
        ([2, 3].map (fun n : Nat => n)) = [] :=
  arrayDiff_correct [1, 2] [2, 3] (fun n : Nat => n)

/-- C2: Reconciliation is idempotent: whenever the extracted key-sets of
`current` and `desired` coincide (in particular after a first reconciliation
has made `current` match `desired`), `arrayDiff` returns the empty plan
`toAdd = []`, `toRemove = []`. -/
theorem arrayDiff_idempotent {T K : Type} [DecidableEq K]
    (current desired : List T) (k : T → K)
    (h : ∀ x, x ∈ current.map k ↔ x ∈ desired.map k) :
    arrayDiff current desired k = ⟨[], []⟩ := by
  simp only [arrayDiff, DiffResult.mk.injEq]
  constructor
  · rw [List.filter_eq_nil_iff]
    intro a ha
    have hm : k a ∈ current.map k := (h (k a)).mpr (List.mem_map_of_mem k ha)
    simp at hm ⊢
    exact hm
  · rw [List.filter_eq_nil_iff]
    intro a ha
    have hm : k a ∈ desired.map k := (h (k a)).mp (List.mem_map_of_mem k ha)
    simp at hm ⊢
    exact hm

/-- Witness for C2 at a concrete input: equal key-sets in different order give
the empty plan. -/
theorem arrayDiff_idempotent_witness :
    arrayDiff [1, 2] [2, 1] (fun n : Nat => n) = ⟨[], []⟩ :=
  arrayDiff_idempotent [1, 2] [2, 1] (fun n : Nat => n)
    (fun x => by constructor <;> (intro hx; simp at hx ⊢; tauto))

/-! ## OAuth client: `src/auth/oauth-client.ts`

`OAuthClient` caches an access token (`accessToken: string | null`) with its
expiry epoch (`tokenExpiresAt`, initially 0).  Times are in epoch
milliseconds, embedded as `Int`.  `getValidAccessToken` either returns the
cached token with no I/O or falls through to `refreshAccessToken` (outbound
I/O); this synchronous decision is embedded as `TokenStep`. -/

def TOKEN_REFRESH_BUFFER : Int := 5 * 60 * 1000

structure OAuthState where
  accessToken : Option String
  tokenExpiresAt : Int
  deriving Repr, DecidableEq

/-- JS truthiness of `this.accessToken` (both `null` and `""` are falsy). -/
def tokenTruthy (s : OAuthState) : Bool :=
  match s.accessToken with
  | none => false
  | some t => decide (t ≠ "")

/-- `isTokenExpired`: `now >= this.tokenExpiresAt - this.TOKEN_REFRESH_BUFFER`. -/
def isTokenExpired (s : OAuthState) (now : Int) : Bool :=
  decide (now ≥ s.tokenExpiresAt - TOKEN_REFRESH_BUFFER)

inductive TokenStep where
  | cached (t : String)
  | refresh
  deriving Repr, DecidableEq

/-- The branch taken by `getValidAccessToken`: return the cached token when it
is present and not expired, otherwise refresh. -/
def getValidAccessToken (s : OAuthState) (now : Int) : TokenStep :=
  if tokenTruthy s && !(isTokenExpired s now) then
    TokenStep.cached (s.accessToken.getD "")
  else
    TokenStep.refresh

/-- C3: `getValidAccessToken` never returns the cached access token when
`now ≥ tokenExpiresAt − TOKEN_REFRESH_BUFFER` (it refreshes instead), and when
a cached token is present with `now < tokenExpiresAt − TOKEN_REFRESH_BUFFER`
it returns that token immediately, with no outbound call. -/
theorem getValidAccessToken_buffer (s : OAuthState) (now : Int) :
    (now ≥ s.tokenExpiresAt - TOKEN_REFRESH_BUFFER →
        getValidAccessToken s now = TokenStep.refresh) ∧
    (∀ t, getValidAccessToken s now = TokenStep.cached t →
        now < s.tokenExpiresAt - TOKEN_REFRESH_BUFFER ∧ s.accessToken = some t) ∧
    (∀ t, s.accessToken = some t → t ≠ "" →
        now < s.tokenExpiresAt - TOKEN_REFRESH_BUFFER →
        getValidAccessToken s now = TokenStep.cached t) := by
  refine ⟨?_, ?_, ?_⟩
  · intro hexp
    simp [getValidAccessToken, isTokenExpired, hexp]
  · intro t hc
    simp only [getValidAccessToken] at hc
    by_cases hb : tokenTruthy s && !(isTokenExpired s now)
    · rw [if_pos hb] at hc
      have h1 := (Bool.and_eq_true _ _).mp hb
      have hexp : ¬ (now ≥ s.tokenExpiresAt - TOKEN_REFRESH_BUFFER) := by
        have := h1.2
        simpa [isTokenExpired] using this
      refine ⟨lt_of_not_ge hexp, ?_⟩
      cases hs : s.accessToken with
      | none => simp [tokenTruthy, hs] at h1
      | some u =>
        simp [hs] at hc
        exact congrArg some hc
    · rw [if_neg hb] at hc
      exact absurd hc (by simp)
  · intro t hs hne hlt
    have htr : tokenTruthy s = true := by simp [tokenTruthy, hs, hne]
    have hexp : isTokenExpired s now = false := by
      simp [isTokenExpired]
      omega
    simp [getValidAccessToken, htr, hexp, hs]

/-- Witness for C3: with a cached token `"tok"` expiring at 1,000,000 ms and
`now = 0`, the token is returned from cache; at `now = 700,000` (inside the
5-minute buffer) the client refreshes. -/
theorem getValidAccessToken_buffer_witness :
    getValidAccessToken ⟨some "tok", 1000000⟩ 0 = TokenStep.cached "tok" ∧
    getValidAccessToken ⟨some "tok", 1000000⟩ 700000 = TokenStep.refresh :=
  ⟨(getValidAccessToken_buffer ⟨some "tok", 1000000⟩ 0).2.2 "tok" rfl
      (by decide) (by decide),
   (getValidAccessToken_buffer ⟨some "tok", 1000000⟩ 700000).1 (by decide)⟩

/-! ## Single-flight refresh: `OAuthClient.refreshAccessToken`

`refreshPromise : Promise<string> | null` guards the refresh.  Promises are
identified by a fresh `Nat`; `outboundCalls` counts invocations of
`performRefresh` (the outbound token-endpoint POST).  A call to
`refreshAccessToken` runs synchronously up to its first `await`: either it
finds an in-flight promise and returns it, or it creates and stores a new one.
The `finally` block that runs when the awaited promise settles is
`settleRefresh`. -/

structure RefreshState where
  refreshPromise : Option Nat
  outboundCalls : Nat
  nextId : Nat
  deriving Repr, DecidableEq

def refreshAccessToken (s : RefreshState) : RefreshState × Nat :=
  match s.refreshPromise with
  | some p => (s, p)
  | none =>
    ({ refreshPromise := some s.nextId
       outboundCalls := s.outboundCalls + 1
       nextId := s.nextId + 1 }, s.nextId)

def settleRefresh (s : RefreshState) : RefreshState :=
  { s with refreshPromise := none }

/-- `n` successive calls to `refreshAccessToken` before the promise settles;
returns the final state and the promise handed to each caller. -/
def callRefreshN : Nat → RefreshState → RefreshState × List Nat
  | 0, s => (s, [])
  | n + 1, s =>
    let r := refreshAccessToken s
    let rest := callRefreshN n r.1
    (rest.1, r.2 :: rest.2)

theorem callRefreshN_of_inflight (n : Nat) (s : RefreshState) (p : Nat)
    (h : s.refreshPromise = some p) :
    callRefreshN n s = (s, List.replicate n p) := by
  induction n with
  | zero => simp [callRefreshN]
  | succ m ih =>
    have hr : refreshAccessToken s = (s, p) := by
      simp [refreshAccessToken, h]
    simp [callRefreshN, hr, ih, List.replicate]

/-- C4: token refresh is single-flight.  If a refresh is in progress, any
number of calls to `refreshAccessToken` all receive the same outstanding
promise and issue no outbound call.  Starting with no refresh in flight,
`n ≥ 1` calls arriving before the refresh settles issue exactly one outbound
refresh call and all receive that same promise; once the refresh settles the
in-flight marker is cleared, so a later call issues a new outbound refresh. -/
theorem refresh_single_flight (s : RefreshState) (n : Nat) (p : Nat)
    (hn : 1 ≤ n) :
    (s.refreshPromise = some p →
      callRefreshN n s = (s, List.replicate n p)) ∧
    (s.refreshPromise = none →
      (callRefreshN n s).1.outboundCalls = s.outboundCalls + 1 ∧
      (callRefreshN n s).2 = List.replicate n s.nextId ∧
      (settleRefresh (callRefreshN n s).1).refreshPromise = none ∧
      (refreshAccessToken (settleRefresh (callRefreshN n s).1)).1.outboundCalls
          = s.outboundCalls + 2) := by
  constructor
  · exact callRefreshN_of_inflight n s p
  · intro h0
    obtain ⟨m, rfl⟩ : ∃ m, n = m + 1 := ⟨n - 1, by omega⟩
    have hr : refreshAccessToken s
        = ({ refreshPromise := some s.nextId
             outboundCalls := s.outboundCalls + 1
             nextId := s.nextId + 1 }, s.nextId) := by
      simp [refreshAccessToken, h0]
    have hrest := callRefreshN_of_inflight m
      { refreshPromise := some s.nextId
        outboundCalls := s.outboundCalls + 1
        nextId := s.nextId + 1 } s.nextId rfl
    refine ⟨?_, ?_, ?_, ?_⟩ <;>
      simp [callRefreshN, hr, hrest, settleRefresh, refreshAccessToken, h0,
        List.replicate]

/-- Witness for C4: from an idle state, three calls before the refresh settles
share one promise and a single outbound call follows; after settling, a fourth
call issues a second outbound call. -/
theorem refresh_single_flight_witness :
    (callRefreshN 3 ⟨none, 0, 0⟩).1.outboundCalls = 0 + 1 ∧
    (callRefreshN 3 ⟨none, 0, 0⟩).2 = List.replicate 3 0 ∧
    (settleRefresh (callRefreshN 3 ⟨none, 0, 0⟩).1).refreshPromise = none ∧
    (refreshAccessToken (settleRefresh (callRefreshN 3 ⟨none, 0, 0⟩).1)).1.outboundCalls
        = 0 + 2 :=
  (refresh_single_flight ⟨none, 0, 0⟩ 3 0 (by decide)).2 rfl

/-! ## Resilient executor: `APIClient` in `src/utils/api-client.ts`

An attempt's failure is an `AxiosError` carrying an optional response status
(`error.response?.status`), or a non-axios `Error`.  The operation is embedded
as a function from the attempt index to that attempt's outcome.
`executeWithRetry` is embedded with explicit fuel (`maxRetries` loop
iterations) and returns the final outcome together with the number of
attempts actually made and the list of backoff delays slept. -/

inductive OpError where
  | axios (response : Option Nat)
  | plain
  deriving Repr, DecidableEq

def maxRetries : Nat := 3

def baseDelay : Nat := 1000

/-- `calculateBackoff`: `baseDelay * Math.pow(2, attempt)`. -/
def calculateBackoff (attempt : Nat) : Nat := baseDelay * 2 ^ attempt

/-- `shouldRetry`: no response received → retry; status 429 or ≥ 500 → retry. -/
def shouldRetry : Option Nat → Bool
  | none => true
  | some status => status == 429 || decide (500 ≤ status)

structure RetryTrace (T : Type) where
  result : Except OpError T
  attemptsMade : Nat
  delays : List Nat
  deriving Repr

def executeGo {T : Type} (op : Nat → Except OpError T) :
    Nat → Nat → RetryTrace T
  | _, 0 => { result := Except.error OpError.plain, attemptsMade := 0, delays := [] }
  | attempt, fuel + 1 =>
    match op attempt with
    | Except.ok v => { result := Except.ok v, attemptsMade := 1, delays := [] }
    | Except.error (OpError.axios resp) =>
      if shouldRetry resp then
        if attempt < maxRetries - 1 then
          let rest := executeGo op (attempt + 1) fuel
          { result := rest.result
            attemptsMade := rest.attemptsMade + 1
            delays := calculateBackoff attempt :: rest.delays }
        else
          { result := Except.error (OpError.axios resp), attemptsMade := 1, delays := [] }
      else
        { result := Except.error (OpError.axios resp), attemptsMade := 1, delays := [] }
    | Except.error OpError.plain =>
      { result := Except.error OpError.plain, attemptsMade := 1, delays := [] }

def executeWithRetry {T : Type} (op : Nat → Except OpError T) : RetryTrace T :=
  executeGo op 0 maxRetries

theorem executeWithRetry_const_fail {T : Type} (op : Nat → Except OpError T)
    (r : Option Nat) (hall : ∀ n, op n = Except.error (OpError.axios r))
    (hr : shouldRetry r = true) :
    executeWithRetry op
      = { result := Except.error (OpError.axios r)
          attemptsMade := 3
          delays := [1000, 2000] } := by
  simp [executeWithRetry, executeGo, hall 0, hall 1, hall 2, hr, maxRetries,
    calculateBackoff, baseDelay]

/-- C5: an operation that always fails with a retryable error (any 5xx, 429,
or a network failure with no response) is attempted exactly 3 times with
delays of 1000 ms and 2000 ms between the attempts, then fails with the last
observed error unchanged; an operation whose first attempt fails with a
non-429 4xx (e.g. 404) is attempted exactly once, with no retry and no
delay. -/
theorem retry_bounds {T : Type} (op op4 : Nat → Except OpError T)
    (r : Option Nat) (s : Nat) :
    ((∀ n, op n = Except.error (OpError.axios r)) → shouldRetry r = true →
      executeWithRetry op
        = { result := Except.error (OpError.axios r)
            attemptsMade := 3
            delays := [1000, 2000] }) ∧
    (op4 0 = Except.error (OpError.axios (some s)) →
      400 ≤ s → s < 500 → s ≠ 429 →
      executeWithRetry op4
        = { result := Except.error (OpError.axios (some s))
            attemptsMade := 1
            delays := [] }) := by
  constructor
  · exact executeWithRetry_const_fail op r
  · intro h0 h400 h500 h429
    have hnr : shouldRetry (some s) = false := by
      simp [shouldRetry]
      omega
    simp [executeWithRetry, executeGo, h0, hnr, maxRetries]

/-- Witness for C5: a constant 503 failure is attempted 3 times with delays
1000 ms and 2000 ms; a 404 on the first attempt is attempted once. -/
theorem retry_bounds_witness :
    executeWithRetry (fun _ => (Except.error (OpError.axios (some 503)) : Except OpError Unit))
      = { result := Except.error (OpError.axios (some 503))
          attemptsMade := 3
          delays := [1000, 2000] } ∧
    executeWithRetry (fun _ => (Except.error (OpError.axios (some 404)) : Except OpError Unit))
      = { result := Except.error (OpError.axios (some 404))
          attemptsMade := 1
          delays := [] } :=
  ⟨(retry_bounds (fun _ => (Except.error (OpError.axios (some 503)) : Except OpError Unit))
      (fun _ => Except.error (OpError.axios (some 404))) (some 503) 404).1
      (fun _ => rfl) (by decide),
   (retry_bounds (fun _ => (Except.error (OpError.axios (some 503)) : Except OpError Unit))
      (fun _ => Except.error (OpError.axios (some 404))) (some 503) 404).2
      rfl (by decide) (by decide) (by decide)⟩

/-- An operation that fails with HTTP 503 on every attempt. -/
def alwaysFail503 : Nat → Except OpError Unit :=
  fun _ => Except.error (OpError.axios (some 503))

/-- C6 counterexample: the claimed formula (delay before attempt `n`,
0-indexed, `n ≥ 1`, equals `baseDelay * 2 ^ n`) predicts a 2000 ms delay
before attempt 1 and delays 1 s, 2 s, 4 s; the code sleeps
`calculateBackoff(attempt)` after the failing attempt, so the delay before
attempt 1 is 1000 ms and the only delays are 1000 ms and 2000 ms. -/
theorem backoff_exponent_counterexample :
    (executeWithRetry alwaysFail503).delays = [1000, 2000] ∧
    (executeWithRetry alwaysFail503).delays.get? 0 ≠ some (baseDelay * 2 ^ 1) ∧
    (executeWithRetry alwaysFail503).delays ≠ [1000, 2000, 4000] := by
  refine ⟨rfl, by decide, by decide⟩

/-- C6 amended: for every retryable failure sequence the backoff delay
inserted before attempt `n` (0-indexed, `n ≥ 1`) equals
`baseDelay * 2 ^ (n − 1)` with `baseDelay = 1000` ms; with 3 attempts total
the only delays are 1 s (before attempt 1) and 2 s (before attempt 2), with
no jitter. -/
theorem backoff_exponent_amended {T : Type} (op : Nat → Except OpError T)
    (r : Option Nat) (hall : ∀ n, op n = Except.error (OpError.axios r))
    (hr : shouldRetry r = true) :
    (executeWithRetry op).delays = [calculateBackoff 0, calculateBackoff 1] ∧
    ∀ n, 1 ≤ n → n < maxRetries →
      (executeWithRetry op).delays.get? (n - 1)
        = some (baseDelay * 2 ^ (n - 1)) := by
  have h := executeWithRetry_const_fail op r hall hr
  constructor
  · rw [h]
    simp [calculateBackoff, baseDelay]
  · intro n h1 h3
    rw [h]
    have h3' : n < 3 := by simpa [maxRetries] using h3
    interval_cases n <;> simp [baseDelay]

/-- Witness for the amended C6 at the constant-503 operation. -/
theorem backoff_exponent_amended_witness :
    (executeWithRetry alwaysFail503).delays
        = [calculateBackoff 0, calculateBackoff 1] ∧
    (executeWithRetry alwaysFail503).delays.get? 0
        = some (baseDelay * 2 ^ 0) :=
  ⟨(backoff_exponent_amended alwaysFail503 (some 503) (fun _ => rfl) (by decide)).1,
   (backoff_exponent_amended alwaysFail503 (some 503) (fun _ => rfl) (by decide)).2
      1 (by decide) (by decide)⟩

/-! ## Data model: `src/types/index.ts` -/

structure LiveStream where
  videoId : String
  channelId : String
  channelName : Option String
  title : String
  startedAt : String
  deriving Repr, DecidableEq, Inhabited

structure PlaylistVideo where
  playlistItemId : String
  videoId : String
  deriving Repr, DecidableEq

structure VideoChangeDetail where
  videoId : String
  title : Option String := none
  channelId : Option String := none
  channelName : Option String := none
  deriving Repr, DecidableEq

structure SyncResult where
  playlistName : String
  liveStreamsFound : Nat
  videosAdded : Nat
  videosRemoved : Nat
  errors : List String
  addedVideos : Option (List VideoChangeDetail) := none
  removedVideos : Option (List VideoChangeDetail) := none
  deriving Repr, DecidableEq

structure Channel where
  id : String
  name : Option String
  deriving Repr, DecidableEq

/-- `ChannelConfig = string | Channel`. -/
inductive ChannelConfig where
  | str (id : String)
  | chan (c : Channel)
  deriving Repr, DecidableEq

structure PlaylistConfig where
  name : String
  playlistId : String
  channels : List ChannelConfig
  deriving Repr, DecidableEq

structure AppConfig where
  playlists : List PlaylistConfig
  deriving Repr, DecidableEq

/-! ## Sync orchestrator: `src/services/sync.service.ts`

The `YouTubeService` collaborator is embedded as an environment of outcome
functions; a thrown exception is `Except.error` carrying the error message.
`batchAddVideos` / `batchRemoveVideos` (`src/services/youtube.service.ts`)
catch every per-item failure inside the loop and continue, so they never
fail; they are embedded as total functions returning the number of items
whose call succeeded. -/

structure YouTubeEnv where
  getChannelLiveStreams : String → Option String → Except String (List LiveStream)
  getPlaylistVideos : String → Except String (List PlaylistVideo)
  addVideoToPlaylist : String → String → Except String Unit
  removeVideoFromPlaylist : String → Except String Unit

def batchAddVideos (env : YouTubeEnv) (playlistId : String)
    (streams : List LiveStream) : Nat :=
  streams.foldl (fun acc stream =>
    match env.addVideoToPlaylist playlistId stream.videoId with
    | Except.ok _ => acc + 1
    | Except.error _ => acc) 0

def batchRemoveVideos (env : YouTubeEnv) (playlistItemIds : List String) : Nat :=
  playlistItemIds.foldl (fun acc pid =>
    match env.removeVideoFromPlaylist pid with
    | Except.ok _ => acc + 1
    | Except.error _ => acc) 0

def normalizeChannel : ChannelConfig → Channel
  | ChannelConfig.str id => { id := id, name := none }
  | ChannelConfig.chan c => c

/-- `deduplicateStreams`: keep the first occurrence per `videoId`, preserving
order; `seen` is the accumulated key set. -/
def dedupGo (seen : List String) : List LiveStream → List LiveStream
  | [] => []
  | s :: rest =>
    if seen.contains s.videoId then dedupGo seen rest
    else s :: dedupGo (s.videoId :: seen) rest

def deduplicateStreams (streams : List LiveStream) : List LiveStream :=
  dedupGo [] streams

/-- The discovery loop of `discoverLiveStreams`: a failing channel is caught,
logged, and contributes no items. -/
def discoverRaw (env : YouTubeEnv) : List ChannelConfig → List LiveStream
  | [] => []
  | cc :: rest =>
    let channel := normalizeChannel cc
    match env.getChannelLiveStreams channel.id channel.name with
    | Except.ok ls => ls ++ discoverRaw env rest
    | Except.error _ => discoverRaw env rest

def discoverLiveStreams (env : YouTubeEnv) (ccs : List ChannelConfig) :
    List LiveStream :=
  deduplicateStreams (discoverRaw env ccs)

/-- The `liveStreams.find(...)!` lookup used to map a planned add back to its
discovered stream. -/
def findStream (liveStreams : List LiveStream) (vid : String) : LiveStream :=
  (liveStreams.find? (fun s => s.videoId == vid)).getD default

def syncPlaylist (env : YouTubeEnv) (config : PlaylistConfig) :
    Except String SyncResult :=
  let liveStreams := discoverLiveStreams env config.channels
  match env.getPlaylistVideos config.playlistId with
  | Except.error e => Except.error e
  | Except.ok currentVideos =>
    let liveVideoIds := liveStreams.map (fun s => s.videoId)
    let diff := arrayDiff currentVideos
      (liveVideoIds.map (fun id => { playlistItemId := "", videoId := id }))
      (fun item => item.videoId)
    let base : SyncResult :=
      { playlistName := config.name
        liveStreamsFound := liveStreams.length
        videosAdded := 0
        videosRemoved := 0
        errors := []
        addedVideos := some []
        removedVideos := some [] }
    let r1 :=
      if diff.toAdd.length > 0 then
        let streamsToAdd := diff.toAdd.map (fun v => findStream liveStreams v.videoId)
        let _ := batchAddVideos env config.playlistId streamsToAdd
        { base with
            videosAdded := streamsToAdd.length
            addedVideos := some (streamsToAdd.map (fun s =>
              { videoId := s.videoId
                title := some s.title
                channelId := some s.channelId
                channelName := s.channelName })) }
      else base
    let r2 :=
      if diff.toRemove.length > 0 then
        let playlistItemIdsToRemove := diff.toRemove.map (fun v => v.playlistItemId)
        let _ := batchRemoveVideos env playlistItemIdsToRemove
        { r1 with
            videosRemoved := playlistItemIdsToRemove.length
            removedVideos := some (diff.toRemove.map (fun v =>
              ({ videoId := v.videoId } : VideoChangeDetail))) }
      else r1
    Except.ok r2

/-- The run-level `try`/`catch` around one task in `syncAllPlaylists`. -/
def runTask (env : YouTubeEnv) (pc : PlaylistConfig) : SyncResult :=
  match syncPlaylist env pc with
  | Except.ok r => r
  | Except.error msg =>
    { playlistName := pc.name
      liveStreamsFound := 0
      videosAdded := 0
      videosRemoved := 0
      errors := ["Failed to sync: " ++ msg] }

def syncAllGo (env : YouTubeEnv) : List PlaylistConfig → List SyncResult
  | [] => []
  | pc :: rest => runTask env pc :: syncAllGo env rest

def syncAllPlaylists (env : YouTubeEnv) (config : AppConfig) : List SyncResult :=
  syncAllGo env config.playlists

theorem syncAllGo_eq_map (env : YouTubeEnv) (l : List PlaylistConfig) :
    syncAllGo env l = l.map (runTask env) := by
  induction l with
  | nil => rfl
  | cons pc rest ih => simp [syncAllGo, ih]

/-- C7: run-level failure isolation with order preservation.
`syncAllPlaylists` returns exactly one result per configured task, in input
order; a task whose `syncPlaylist` succeeds contributes its result at its own
index, and a task whose `syncPlaylist` throws contributes, at its own index, a
result with zero counts and exactly one error string — so tasks after a
failing task are still executed and appear in the results. -/
theorem syncAllPlaylists_isolation (env : YouTubeEnv) (config : AppConfig) :
    (syncAllPlaylists env config).length = config.playlists.length ∧
    (∀ i (hi : i < config.playlists.length) r,
      syncPlaylist env (config.playlists.get ⟨i, hi⟩) = Except.ok r →
      (syncAllPlaylists env config).get? i = some r) ∧
    (∀ i (hi : i < config.playlists.length) msg,
      syncPlaylist env (config.playlists.get ⟨i, hi⟩) = Except.error msg →
      (syncAllPlaylists env config).get? i = some
        { playlistName := (config.playlists.get ⟨i, hi⟩).name
          liveStreamsFound := 0
          videosAdded := 0
          videosRemoved := 0
          errors := ["Failed to sync: " ++ msg] }) := by
  refine ⟨?_, ?_, ?_⟩
  · simp [syncAllPlaylists, syncAllGo_eq_map]
  · intro i hi r h
    rw [syncAllPlaylists, syncAllGo_eq_map, List.get?_map,
      List.get?_eq_get hi]
    have h' : syncPlaylist env config.playlists[i] = Except.ok r := h
    simp [runTask, h']
  · intro i hi msg h
    rw [syncAllPlaylists, syncAllGo_eq_map, List.get?_map,
      List.get?_eq_get hi]
    have h' : syncPlaylist env config.playlists[i] = Except.error msg := h
    simp [runTask, h']

/-- A stream used by the concrete witnesses below. -/
def streamW1 : LiveStream :=
  { videoId := "v1", channelId := "UCgood", channelName := some "Good"
    title := "t1", startedAt := "2026-01-01T00:00:00Z" }

/-- A concrete environment: channel `UCgood` is live with one stream, every
other channel fails; playlist `PLbad` cannot be listed, every other playlist
is currently empty. -/
def envC7 : YouTubeEnv :=
  { getChannelLiveStreams := fun id _ =>
      if id = "UCgood" then Except.ok [streamW1] else Except.error "quota"
    getPlaylistVideos := fun pid =>
      if pid = "PLbad" then Except.error "boom" else Except.ok []
    addVideoToPlaylist := fun _ _ => Except.ok ()
    removeVideoFromPlaylist := fun _ => Except.ok () }

def taskBad : PlaylistConfig :=
  { name := "bad", playlistId := "PLbad", channels := [ChannelConfig.str "UCgood"] }

def taskGood : PlaylistConfig :=
  { name := "good", playlistId := "PLgood", channels := [ChannelConfig.str "UCgood"] }

def configC7 : AppConfig := { playlists := [taskBad, taskGood] }

/-- Witness for C7: with task 1 failing at the fetch step and task 2
succeeding, the run yields two results in order — a zero-count single-error
result for task 1, and task 2's own result. -/
theorem syncAllPlaylists_isolation_witness :
    (syncAllPlaylists envC7 configC7).length = 2 ∧
    (syncAllPlaylists envC7 configC7).get? 0 = some
      { playlistName := "bad", liveStreamsFound := 0, videosAdded := 0
        videosRemoved := 0, errors := ["Failed to sync: boom"] } ∧
    (syncAllPlaylists envC7 configC7).get? 1 = some
      { playlistName := "good", liveStreamsFound := 1, videosAdded := 1
        videosRemoved := 0, errors := []
        addedVideos := some [{ videoId := "v1", title := some "t1"
                               channelId := some "UCgood"
                               channelName := some "Good" }]
        removedVideos := some [] } :=
  ⟨(syncAllPlaylists_isolation envC7 configC7).1,
   (syncAllPlaylists_isolation envC7 configC7).2.2 0 (by decide) "boom" rfl,
   (syncAllPlaylists_isolation envC7 configC7).2.1 1 (by decide) _ rfl⟩

/-- Shape of a successful `syncPlaylist`: once discovery and the playlist
fetch are done, the result carries the task name, the number of discovered
streams, an empty error list, and counts equal to the lengths of the two
sides of the reconciliation plan. -/
theorem syncPlaylist_ok_shape (env : YouTubeEnv) (config : PlaylistConfig)
    (currentVideos : List PlaylistVideo)
    (hv : env.getPlaylistVideos config.playlistId = Except.ok currentVideos) :
    ∃ r, syncPlaylist env config = Except.ok r ∧
      r.playlistName = config.name ∧
      r.liveStreamsFound = (discoverLiveStreams env config.channels).length ∧
      r.errors = [] ∧
      r.videosAdded = (arrayDiff currentVideos
          (((discoverLiveStreams env config.channels).map (fun s => s.videoId)).map
            (fun id => { playlistItemId := "", videoId := id }))
          (fun item => item.videoId)).toAdd.length ∧
      r.videosRemoved = (arrayDiff currentVideos
          (((discoverLiveStreams env config.channels).map (fun s => s.videoId)).map
            (fun id => { playlistItemId := "", videoId := id }))
          (fun item => item.videoId)).toRemove.length := by
  unfold syncPlaylist
  rw [hv]
  refine ⟨_, rfl, ?_, ?_, ?_, ?_, ?_⟩ <;>
  · dsimp only
    simp only [List.map_map]
    split <;> split <;> simp [List.length_map, List.map_map] <;> omega

/-- C8: source-level failure isolation during discovery.  A channel whose
live-stream lookup fails contributes zero items and discovery continues with
the remaining channels; and a task whose `syncPlaylist` completes reports
`liveStreamsFound` equal to the full discovery count with an empty `errors`
list — discovery failures are never appended to `errors`, which only a
top-level task failure populates. -/
theorem discovery_isolation (env : YouTubeEnv) (cc : ChannelConfig)
    (ccs : List ChannelConfig) (config : PlaylistConfig) (e : String) :
    (env.getChannelLiveStreams (normalizeChannel cc).id (normalizeChannel cc).name
        = Except.error e →
      discoverLiveStreams env (cc :: ccs) = discoverLiveStreams env ccs) ∧
    (∀ r, syncPlaylist env config = Except.ok r →
      r.liveStreamsFound = (discoverLiveStreams env config.channels).length ∧
      r.errors = []) := by
  constructor
  · intro h
    simp [discoverLiveStreams, discoverRaw, h]
  · intro r h
    cases hv : env.getPlaylistVideos config.playlistId with
    | error e2 =>
      unfold syncPlaylist at h
      rw [hv] at h
      exact absurd h (by simp)
    | ok currentVideos =>
      obtain ⟨r', hr', _, hfound, herr, _, _⟩ :=
        syncPlaylist_ok_shape env config currentVideos hv
      rw [h] at hr'
      simp only [Except.ok.injEq] at hr'
      subst hr'
      exact ⟨hfound, herr⟩

def streamW2a : LiveStream :=
  { videoId := "v2", channelId := "UCgood", channelName := none
    title := "t2", startedAt := "2026-01-01T00:00:00Z" }

def streamW2b : LiveStream :=
  { videoId := "v3", channelId := "UCgood", channelName := none
    title := "t3", startedAt := "2026-01-01T00:00:00Z" }

/-- Concrete environment for the C8 witness: channel `UCbad` fails, any other
channel yields two distinct live streams; the playlist is currently empty. -/
def envC8 : YouTubeEnv :=
  { getChannelLiveStreams := fun id _ =>
      if id = "UCbad" then Except.error "quota" else Except.ok [streamW2a, streamW2b]
    getPlaylistVideos := fun _ => Except.ok []
    addVideoToPlaylist := fun _ _ => Except.ok ()
    removeVideoFromPlaylist := fun _ => Except.ok () }

def cfgC8 : PlaylistConfig :=
  { name := "c8", playlistId := "PLc8"
    channels := [ChannelConfig.str "UCbad", ChannelConfig.str "UCgood"] }

/-- Witness for C8: with one failing source and one source yielding 2 items,
discovery skips the failing source, and the task reports
`liveStreamsFound = 2` with an empty error list instead of failing. -/
theorem discovery_isolation_witness :
    discoverLiveStreams envC8 [ChannelConfig.str "UCbad", ChannelConfig.str "UCgood"]
      = discoverLiveStreams envC8 [ChannelConfig.str "UCgood"] ∧
    ∃ r, syncPlaylist envC8 cfgC8 = Except.ok r ∧
      r.liveStreamsFound = 2 ∧ r.errors = [] := by
  refine ⟨(discovery_isolation envC8 (ChannelConfig.str "UCbad")
      [ChannelConfig.str "UCgood"] cfgC8 "quota").1 rfl, ?_⟩
  refine ⟨_, rfl, ?_, ?_⟩
  · exact ((discovery_isolation envC8 (ChannelConfig.str "UCbad")
      [ChannelConfig.str "UCgood"] cfgC8 "quota").2 _ rfl).1.trans (by decide)
  · exact ((discovery_isolation envC8 (ChannelConfig.str "UCbad")
      [ChannelConfig.str "UCgood"] cfgC8 "quota").2 _ rfl).2

theorem discoverRaw_env_congr (env env' : YouTubeEnv)
    (h : env.getChannelLiveStreams = env'.getChannelLiveStreams)
    (ccs : List ChannelConfig) :
    discoverRaw env ccs = discoverRaw env' ccs := by
  induction ccs with
  | nil => rfl
  | cons cc rest ih => simp [discoverRaw, h, ih]

/-- C10: whenever discovery and the playlist fetch succeed, the reported
`videosAdded` equals the length of the plan's `toAdd` and `videosRemoved`
equals the length of the plan's `toRemove`; the per-item outcomes of the
batched add/remove calls are swallowed inside `batchAddVideos` /
`batchRemoveVideos` and cannot change the result, so the counts reflect
planned mutations, not confirmed ones. -/
theorem counts_reflect_plan (env : YouTubeEnv) (config : PlaylistConfig)
    (currentVideos : List PlaylistVideo)
    (hv : env.getPlaylistVideos config.playlistId = Except.ok currentVideos) :
    (∃ r, syncPlaylist env config = Except.ok r ∧
      r.videosAdded = (arrayDiff currentVideos
          (((discoverLiveStreams env config.channels).map (fun s => s.videoId)).map
            (fun id => { playlistItemId := "", videoId := id }))
          (fun item => item.videoId)).toAdd.length ∧
      r.videosRemoved = (arrayDiff currentVideos
          (((discoverLiveStreams env config.channels).map (fun s => s.videoId)).map
            (fun id => { playlistItemId := "", videoId := id }))
          (fun item => item.videoId)).toRemove.length) ∧
    (∀ addF remF,
      syncPlaylist
        { env with addVideoToPlaylist := addF, removeVideoFromPlaylist := remF }
        config
        = syncPlaylist env config) := by
  constructor
  · obtain ⟨r, hr, _, _, _, hadd, hrem⟩ :=
      syncPlaylist_ok_shape env config currentVideos hv
    exact ⟨r, hr, hadd, hrem⟩
  · intro addF remF
    have hd : discoverRaw
        { env with addVideoToPlaylist := addF, removeVideoFromPlaylist := remF }
        config.channels = discoverRaw env config.channels :=
      discoverRaw_env_congr
        { env with addVideoToPlaylist := addF, removeVideoFromPlaylist := remF }
        env rfl config.channels
    simp only [syncPlaylist, discoverLiveStreams, hd]

/-- Concrete environment for the C10 witness: one live stream is discovered,
the playlist currently holds one other video, and every add or remove call
fails. -/
def envC10 : YouTubeEnv :=
  { getChannelLiveStreams := fun _ _ => Except.ok [streamW1]
    getPlaylistVideos := fun _ =>
      Except.ok [{ playlistItemId := "pi-old", videoId := "vOld" }]
    addVideoToPlaylist := fun _ _ => Except.error "insert rejected"
    removeVideoFromPlaylist := fun _ => Except.error "delete rejected" }

def cfgC10 : PlaylistConfig :=
  { name := "c10", playlistId := "PLx", channels := [ChannelConfig.str "UCx"] }

/-- Witness for C10: with every add and remove call failing, the task still
reports `videosAdded = 1` and `videosRemoved = 1` (the planned counts), while
the batch add actually succeeded for 0 items. -/
theorem counts_reflect_plan_witness :
    (∃ r, syncPlaylist envC10 cfgC10 = Except.ok r ∧
      r.videosAdded = 1 ∧ r.videosRemoved = 1) ∧
    batchAddVideos envC10 "PLx" [streamW1] = 0 := by
  obtain ⟨⟨r, hr, hadd, hrem⟩, _⟩ :=
    counts_reflect_plan envC10 cfgC10
      [{ playlistItemId := "pi-old", videoId := "vOld" }] rfl
  exact ⟨⟨r, hr, hadd.trans (by decide), hrem.trans (by decide)⟩, rfl⟩

/-! ## Configuration schema: `src/config/schema.ts`

The parsed JSON configuration is embedded as a `Json` value and the zod
schemas as validators returning `Except` (zod collects every issue; only
acceptance versus rejection matters here, so the first issue's message is
kept).  In `PlaylistConfigSchema`, `channels` is an array of strings matching
`/^UC[\w-]+$/` — a `{id, name}` object is not accepted by the schema even
though the `ChannelConfig` type and `normalizeChannel` would handle one. -/

inductive Json where
  | str (s : String)
  | num (n : Int)
  | jbool (b : Bool)
  | null
  | arr (items : List Json)
  | obj (fields : List (String × Json))

def getField : List (String × Json) → String → Option Json
  | [], _ => none
  | (k, v) :: rest, key => if k = key then some v else getField rest key

/-- JS regex class `[\w-]` (no `u` flag): ASCII letter, digit, `_` or `-`. -/
def isWordDashChar (c : Char) : Bool :=
  c.isAlpha || c.isDigit || c == '_' || c == '-'

/-- `/^PL[\w-]+$/` from `PlaylistConfigSchema.playlistId`: the literal prefix
`PL` followed by one or more `[\w-]` characters. -/
def matchesPlaylistIdPattern (s : String) : Bool :=
  match s.data with
  | 'P' :: 'L' :: rest => decide (1 ≤ rest.length) && rest.all isWordDashChar
  | _ => false

/-- `/^UC[\w-]+$/` from `PlaylistConfigSchema.channels` elements. -/
def matchesChannelIdPattern (s : String) : Bool :=
  match s.data with
  | 'U' :: 'C' :: rest => decide (1 ≤ rest.length) && rest.all isWordDashChar
  | _ => false

def parseChannels : List Json → Except String (List ChannelConfig)
  | [] => Except.ok []
  | Json.str c :: rest =>
    if matchesChannelIdPattern c then
      (parseChannels rest).map (fun cs => ChannelConfig.str c :: cs)
    else
      Except.error "Invalid YouTube channel ID format (must start with UC)"
  | _ :: _ => Except.error "Expected string"

def parsePlaylistConfig (j : Json) : Except String PlaylistConfig :=
  match j with
  | Json.obj fields =>
    match getField fields "name", getField fields "playlistId",
        getField fields "channels" with
    | some (Json.str name), some (Json.str pid), some (Json.arr chans) =>
      if decide (1 ≤ name.length) then
        if decide (1 ≤ pid.length) && matchesPlaylistIdPattern pid then
          match parseChannels chans with
          | Except.ok cs =>
            if decide (1 ≤ cs.length) then
              Except.ok { name := name, playlistId := pid, channels := cs }
            else Except.error "At least one channel is required"
          | Except.error e => Except.error e
        else Except.error "Invalid YouTube playlist ID format (must start with PL)"
      else Except.error "Playlist name is required"
    | _, _, _ => Except.error "Required"
  | _ => Except.error "Expected object"

def parsePlaylists : List Json → Except String (List PlaylistConfig)
  | [] => Except.ok []
  | j :: rest =>
    match parsePlaylistConfig j with
    | Except.ok pc => (parsePlaylists rest).map (fun ps => pc :: ps)
    | Except.error e => Except.error e

/-- `AppConfigSchema.parse` inside `loadConfig`, applied to the decoded
configuration value. -/
def loadConfig (j : Json) : Except String AppConfig :=
  match j with
  | Json.obj fields =>
    match getField fields "playlists" with
    | some (Json.arr ps) =>
      if decide (1 ≤ ps.length) then
        (parsePlaylists ps).map (fun l => { playlists := l })
      else Except.error "At least one playlist is required"
    | _ => Except.error "Required"
  | _ => Except.error "Expected object"

def parseSucceeds {α : Type} : Except String α → Bool
  | Except.ok _ => true
  | Except.error _ => false

structure HandlerOutcome where
  status : Nat
  networkCalls : Nat
  deriving Repr, DecidableEq

/-- The order of operations in the `api/cron.ts` handler: the configuration is
loaded and validated before the `SyncService` makes any outbound call; a
validation failure is caught and answered with status 500 and no network
call.  `runSync` abstracts everything after validation and reports how many
outbound calls it made. -/
def handler (configData : Json) (runSync : AppConfig → Nat) : HandlerOutcome :=
  match loadConfig configData with
  | Except.error _ => { status := 500, networkCalls := 0 }
  | Except.ok cfg => { status := 200, networkCalls := runSync cfg }

/-! Spec-side acceptance predicates.  `claimSource`/`claimPlaylist`/
`claimConfig` follow C9's words (a source may be a bare string or an
`{id, displayLabel}` object); `schemaSource`/`schemaPlaylist`/`schemaConfig`
state what the zod schema actually accepts. -/

def claimSource : Json → Bool
  | Json.str _ => true
  | Json.obj fields => (getField fields "id").isSome
  | _ => false

def claimPlaylist : Json → Bool
  | Json.obj fields =>
    (match getField fields "name" with
     | some (Json.str n) => decide (1 ≤ n.length)
     | _ => false) &&
    (match getField fields "playlistId" with
     | some (Json.str p) => matchesPlaylistIdPattern p
     | _ => false) &&
    (match getField fields "channels" with
     | some (Json.arr cs) => decide (1 ≤ cs.length) && cs.all claimSource
     | _ => false)
  | _ => false

def claimConfig : Json → Bool
  | Json.obj fields =>
    (match getField fields "playlists" with
     | some (Json.arr ps) => decide (1 ≤ ps.length) && ps.all claimPlaylist
     | _ => false)
  | _ => false

def schemaSource : Json → Bool
  | Json.str c => matchesChannelIdPattern c
  | _ => false

def schemaPlaylist : Json → Bool
  | Json.obj fields =>
    (match getField fields "name", getField fields "playlistId",
        getField fields "channels" with
     | some (Json.str name), some (Json.str pid), some (Json.arr chans) =>
       decide (1 ≤ name.length) &&
       (decide (1 ≤ pid.length) && matchesPlaylistIdPattern pid) &&
       (chans.all schemaSource && decide (1 ≤ chans.length))
     | _, _, _ => false)
  | _ => false

def schemaConfig : Json → Bool
  | Json.obj fields =>
    (match getField fields "playlists" with
     | some (Json.arr ps) => decide (1 ≤ ps.length) && ps.all schemaPlaylist
     | _ => false)
  | _ => false

theorem parseSucceeds_map {α β : Type} (f : α → β) (e : Except String α) :
    parseSucceeds (e.map f) = parseSucceeds e := by
  cases e <;> rfl

theorem parseChannels_all (cs : List Json) :
    parseSucceeds (parseChannels cs) = cs.all schemaSource := by
  induction cs with
  | nil => rfl
  | cons c rest ih =>
    cases c with
    | str s =>
      by_cases h : matchesChannelIdPattern s = true
      · simp [parseChannels, h, schemaSource, parseSucceeds_map, ih]
      · simp [parseChannels, h, schemaSource, parseSucceeds]
    | num n => simp [parseChannels, schemaSource, parseSucceeds]
    | jbool b => simp [parseChannels, schemaSource, parseSucceeds]
    | null => simp [parseChannels, schemaSource, parseSucceeds]
    | arr items => simp [parseChannels, schemaSource, parseSucceeds]
    | obj fields => simp [parseChannels, schemaSource, parseSucceeds]

theorem parseChannels_length (cs : List Json) (l : List ChannelConfig)
    (h : parseChannels cs = Except.ok l) : l.length = cs.length := by
  induction cs generalizing l with
  | nil =>
    simp [parseChannels] at h
    simp [← h]
  | cons c rest ih =>
    cases c with
    | str s =>
      by_cases hp : matchesChannelIdPattern s = true
      · simp [parseChannels, hp] at h
        cases hrest : parseChannels rest with
        | error e => rw [hrest] at h; exact absurd h (by simp [Except.map])
        | ok l' =>
          rw [hrest] at h
          simp [Except.map] at h
          rw [← h]
          simp [List.length_cons, ih l' hrest]
      · simp [parseChannels, hp] at h
    | num n => simp [parseChannels] at h
    | jbool b => simp [parseChannels] at h
    | null => simp [parseChannels] at h
    | arr items => simp [parseChannels] at h
    | obj fields => simp [parseChannels] at h

theorem parsePlaylistConfig_ok (j : Json) :
    parseSucceeds (parsePlaylistConfig j) = schemaPlaylist j := by
  cases j with
  | str s => rfl
  | num n => rfl
  | jbool b => rfl
  | null => rfl
  | arr items => rfl
  | obj fields =>
    cases hn : getField fields "name" with
    | none => simp [parsePlaylistConfig, schemaPlaylist, hn, parseSucceeds]
    | some nj =>
      cases nj with
      | num n => simp [parsePlaylistConfig, schemaPlaylist, hn, parseSucceeds]
      | jbool b => simp [parsePlaylistConfig, schemaPlaylist, hn, parseSucceeds]
      | null => simp [parsePlaylistConfig, schemaPlaylist, hn, parseSucceeds]
      | arr i => simp [parsePlaylistConfig, schemaPlaylist, hn, parseSucceeds]
      | obj f2 => simp [parsePlaylistConfig, schemaPlaylist, hn, parseSucceeds]
      | str name =>
        cases hp : getField fields "playlistId" with
        | none => simp [parsePlaylistConfig, schemaPlaylist, hn, hp, parseSucceeds]
        | some pj =>
          cases pj with
          | num n => simp [parsePlaylistConfig, schemaPlaylist, hn, hp, parseSucceeds]
          | jbool b => simp [parsePlaylistConfig, schemaPlaylist, hn, hp, parseSucceeds]
          | null => simp [parsePlaylistConfig, schemaPlaylist, hn, hp, parseSucceeds]
          | arr i => simp [parsePlaylistConfig, schemaPlaylist, hn, hp, parseSucceeds]
          | obj f2 => simp [parsePlaylistConfig, schemaPlaylist, hn, hp, parseSucceeds]
          | str pid =>
            cases hc : getField fields "channels" with
            | none =>
              simp [parsePlaylistConfig, schemaPlaylist, hn, hp, hc, parseSucceeds]
            | some cj =>
              cases cj with
              | num n =>
                simp [parsePlaylistConfig, schemaPlaylist, hn, hp, hc, parseSucceeds]
              | jbool b =>
                simp [parsePlaylistConfig, schemaPlaylist, hn, hp, hc, parseSucceeds]
              | null =>
                simp [parsePlaylistConfig, schemaPlaylist, hn, hp, hc, parseSucceeds]
              | obj f2 =>
                simp [parsePlaylistConfig, schemaPlaylist, hn, hp, hc, parseSucceeds]
              | str s2 =>
                simp [parsePlaylistConfig, schemaPlaylist, hn, hp, hc, parseSucceeds]
              | arr chans =>
                simp only [parsePlaylistConfig, schemaPlaylist, hn, hp, hc]
                by_cases h1 : decide (1 ≤ name.length) = true
                · by_cases h2 :
                      (decide (1 ≤ pid.length) && matchesPlaylistIdPattern pid) = true
                  · cases hpc : parseChannels chans with
                    | error e =>
                      have hall := parseChannels_all chans
                      rw [hpc] at hall
                      simp only [parseSucceeds] at hall
                      simp [h1, h2, hpc, parseSucceeds, ← hall]
                    | ok cs =>
                      have hall := parseChannels_all chans
                      rw [hpc] at hall
                      simp only [parseSucceeds] at hall
                      have hlen := parseChannels_length chans cs hpc
                      by_cases h3 : decide (1 ≤ cs.length) = true
                      · have h3' : decide (1 ≤ chans.length) = true := by
                          simp only [decide_eq_true_eq] at h3 ⊢
                          omega
                        simp [h1, h2, h3, h3', hpc, parseSucceeds, ← hall]
                      · have h3' : decide (1 ≤ chans.length) = false := by
                          simp only [decide_eq_true_eq] at h3
                          simp only [decide_eq_false_iff_not]
                          omega
                        simp [h1, h2, h3, h3', hpc, parseSucceeds]
                  · simp [h1, h2, parseSucceeds]
                · simp [h1, parseSucceeds]

theorem parsePlaylists_all (ps : List Json) :
    parseSucceeds (parsePlaylists ps) = ps.all schemaPlaylist := by
  induction ps with
  | nil => rfl
  | cons j rest ih =>
    cases hj : parsePlaylistConfig j with
    | error e =>
      have h := parsePlaylistConfig_ok j
      rw [hj] at h
      simp only [parseSucceeds] at h
      simp [parsePlaylists, hj, parseSucceeds, ← h]
    | ok pc =>
      have h := parsePlaylistConfig_ok j
      rw [hj] at h
      simp only [parseSucceeds] at h
      simp [parsePlaylists, hj, parseSucceeds_map, ih, ← h]

/-- C9 counterexample: a configuration whose single playlist has a name, a
collection id matching the `PL` prefix pattern, and one source given as an
`{id, displayLabel}` object satisfies C9's acceptance condition, yet
`loadConfig` rejects it — the schema accepts only bare channel-id strings. -/
def objChannelJson : Json :=
  Json.obj [("playlists", Json.arr [Json.obj [
    ("name", Json.str "Live now"),
    ("playlistId", Json.str "PLabc123"),
    ("channels", Json.arr [Json.obj [
      ("id", Json.str "UCabc123"),
      ("displayLabel", Json.str "My channel")]])]])]

theorem loadConfig_union_counterexample :
    claimConfig objChannelJson = true ∧
    parseSucceeds (loadConfig objChannelJson) = false :=
  ⟨rfl, rfl⟩

/-- C9 amended: `loadConfig` accepts exactly the configurations with at least
one playlist, each having a nonempty name, a `playlistId` matching the fixed
`PL` prefix pattern, and at least one source, where every source must be a
bare channel-id string matching the fixed `UC` prefix pattern (an
`{id, displayLabel}` object is rejected); for every malformed configuration
the handler fails before any network call is made. -/
theorem loadConfig_accepts_exactly (j : Json) :
    parseSucceeds (loadConfig j) = schemaConfig j ∧
    (∀ runSync, schemaConfig j = false →
      handler j runSync = { status := 500, networkCalls := 0 }) := by
  have hmain : parseSucceeds (loadConfig j) = schemaConfig j := by
    cases j with
    | str s => rfl
    | num n => rfl
    | jbool b => rfl
    | null => rfl
    | arr items => rfl
    | obj fields =>
      cases hn : getField fields "playlists" with
      | none => simp [loadConfig, schemaConfig, hn, parseSucceeds]
      | some pj =>
        cases pj with
        | str s => simp [loadConfig, schemaConfig, hn, parseSucceeds]
        | num n => simp [loadConfig, schemaConfig, hn, parseSucceeds]
        | jbool b => simp [loadConfig, schemaConfig, hn, parseSucceeds]
        | null => simp [loadConfig, schemaConfig, hn, parseSucceeds]
        | obj f2 => simp [loadConfig, schemaConfig, hn, parseSucceeds]
        | arr ps =>
          by_cases hl : decide (1 ≤ ps.length) = true
          · simp [loadConfig, schemaConfig, hn, hl, parseSucceeds_map,
              parsePlaylists_all]
          · simp [loadConfig, schemaConfig, hn, hl, parseSucceeds]
  refine ⟨hmain, ?_⟩
  intro runSync hfalse
  rw [hfalse] at hmain
  cases hl : loadConfig j with
  | ok cfg => rw [hl] at hmain; exact absurd hmain (by simp [parseSucceeds])
  | error e => simp [handler, hl]

/-- Witness for the amended C9: the object-source configuration is rejected
and the handler answers 500 with zero outbound calls. -/
theorem loadConfig_accepts_exactly_witness :
    parseSucceeds (loadConfig objChannelJson) = schemaConfig objChannelJson ∧
    handler objChannelJson (fun _ => 5) = { status := 500, networkCalls := 0 } :=
  ⟨(loadConfig_accepts_exactly objChannelJson).1,
   (loadConfig_accepts_exactly objChannelJson).2 (fun _ => 5) rfl⟩

end YTSync
